import Mathlib

/-!
Verification of the experiment-log and code-generation/execution loop of the
cuxfilter visualization prompt agent.

Source files embedded here:
  * `src/tools/viz_exp_store.py` — `VizExperimentStore` (`save_experiment`,
    `load_all_experiments`, `find_best_dashboard`, `get_recent_experiments`).
  * `src/viz_code_generator.py`  — `VizCodeGenerator.generate_code`.
  * `src/viz_code_executor.py`   — `VizCodeExecutor.execute_code` (the live class
    at the bottom of the file, not the commented-out `safe_execute_viz_code`).
  * `src/viz_tools.py`           — `VizTools.execute_tool`.

Embedding conventions:
  * Python values are modelled by `PyVal`: JSON leaves, lists, dicts
    (association lists in insertion order, as Python dicts are), plus the three
    non-serializable shapes `save_experiment` distinguishes (objects with a
    `dtype` attribute, objects with `isoformat`, and everything else whose
    `json.dumps` fails, each remembering its `str()` rendering).
  * `exec` of generated code, the model client's `chat`, `str.format` and
    `dashboard.export` are external behaviours; the embedding takes them as
    function parameters (oracles) and the functions around them are translated
    from the source.
  * In-place mutation of a caller's dict (`save_experiment` stamping its
    argument) is modelled by returning the post-call state of the argument.
-/

/-- Model of a Python value as the store and executor see it.  `vdtype`
carries the `str()` of an object with a `dtype` attribute, `vdtobj` the
`isoformat()` of a datetime-like object, `vother` the `str()` of any other
object `json.dumps` rejects (tagged with what it stands for, e.g. a dashboard
handle).  Dicts are association lists in insertion order. -/
inductive PyVal where
  | vnull
  | vbool (b : Bool)
  | vnum (q : ℚ)
  | vstr (s : String)
  | vdtype (s : String)
  | vdtobj (iso : String)
  | vother (tag : String) (s : String)
  | vlist (xs : List PyVal)
  | vdict (kvs : List (String × PyVal))

open PyVal

/-- Python `d.get(k)` over an association-list dict: the first binding of `k`. -/
def dlookup {α : Type} : List (String × α) → String → Option α
  | [], _ => none
  | (k', v) :: rest, k => if k' = k then some v else dlookup rest k

/-- Python `d[k] = v`: replace the binding in place if `k` is present (keeping
its position, as Python dicts do), else append it at the end. -/
def dinsert {α : Type} : List (String × α) → String → α → List (String × α)
  | [], k, v => [(k, v)]
  | (k', v') :: rest, k, v =>
      if k' = k then (k, v) :: rest else (k', v') :: dinsert rest k v

/-- Python `base.update(upd)`: fold the updates into `base`, later bindings
winning. -/
def nsUpdate {α : Type} (base upd : List (String × α)) : List (String × α) :=
  upd.foldl (fun acc kv => dinsert acc kv.1 kv.2) base

theorem dlookup_dinsert_self {α : Type} (l : List (String × α)) (k : String) (v : α) :
    dlookup (dinsert l k v) k = some v := by
  induction l with
  | nil => simp [dinsert, dlookup]
  | cons hd tl ih =>
      obtain ⟨k', v'⟩ := hd
      by_cases h : k' = k
      · simp [dinsert, dlookup, h]
      · simp [dinsert, dlookup, h, ih]

theorem dlookup_dinsert_ne {α : Type} (l : List (String × α)) (k k' : String) (v : α)
    (h : k ≠ k') : dlookup (dinsert l k v) k' = dlookup l k' := by
  induction l with
  | nil => simp [dinsert, dlookup, h]
  | cons hd tl ih =>
      obtain ⟨k0, v0⟩ := hd
      by_cases h0 : k0 = k
      · subst h0
        simp [dinsert, dlookup, h]
      · simp [dinsert, dlookup, h0, ih]

/-! ### `VizExperimentStore.save_experiment` — sanitization (viz_exp_store.py lines 24-52) -/

mutual
/-- `make_serializable` from `save_experiment`: dicts and lists recurse;
an object with a `dtype` attribute and any object `json.dumps` rejects go to
their `str()`; a datetime-like object goes to its `isoformat()`; natively
serializable leaves pass through. -/
def make_serializable : PyVal → PyVal
  | vdict kvs => vdict (msKVs kvs)
  | vlist xs => vlist (msList xs)
  | vdtype s => vstr s
  | vdtobj iso => vstr iso
  | vother _ s => vstr s
  | vnull => vnull
  | vbool b => vbool b
  | vnum q => vnum q
  | vstr s => vstr s
def msList : List PyVal → List PyVal
  | [] => []
  | x :: xs => make_serializable x :: msList xs
def msKVs : List (String × PyVal) → List (String × PyVal)
  | [] => []
  | (k, v) :: rest => (k, make_serializable v) :: msKVs rest
end

mutual
/-- A value every leaf of which `json.dumps` accepts natively (so appending it
to the JSON-lines log and re-parsing it cannot fail). -/
def serializable : PyVal → Bool
  | vnull => true
  | vbool _ => true
  | vnum _ => true
  | vstr _ => true
  | vdtype _ => false
  | vdtobj _ => false
  | vother _ _ => false
  | vlist xs => serializableList xs
  | vdict kvs => serializableKVs kvs
def serializableList : List PyVal → Bool
  | [] => true
  | x :: xs => serializable x && serializableList xs
def serializableKVs : List (String × PyVal) → Bool
  | [] => true
  | (_, v) :: rest => serializable v && serializableKVs rest
end

/-- `VizExperimentStore.save_experiment` (viz_exp_store.py lines 24-52).  It
stamps `timestamp` and `date` into the caller's dict in place, sanitizes a
copy, and appends one line to the log.  Returned: the log after the append and
the post-call state of the caller's argument dict. -/
def save_experiment (now : ℚ) (date_str : String) (store : List PyVal)
    (experiment_data : List (String × PyVal)) :
    List PyVal × List (String × PyVal) :=
  let d1 := dinsert experiment_data "timestamp" (vnum now)
  let d2 := dinsert d1 "date" (vstr date_str)
  (store ++ [make_serializable (vdict d2)], d2)

mutual
theorem make_serializable_idem :
    ∀ v, make_serializable (make_serializable v) = make_serializable v
  | vdict kvs => by simp [make_serializable, msKVs_idem kvs]
  | vlist xs => by simp [make_serializable, msList_idem xs]
  | vdtype s => rfl
  | vdtobj iso => rfl
  | vother t s => rfl
  | vnull => rfl
  | vbool b => rfl
  | vnum q => rfl
  | vstr s => rfl
theorem msList_idem : ∀ xs, msList (msList xs) = msList xs
  | [] => rfl
  | x :: xs => by simp [msList, make_serializable_idem x, msList_idem xs]
theorem msKVs_idem : ∀ kvs, msKVs (msKVs kvs) = msKVs kvs
  | [] => rfl
  | (k, v) :: rest => by simp [msKVs, make_serializable_idem v, msKVs_idem rest]
end

mutual
theorem serializable_make_serializable :
    ∀ v, serializable (make_serializable v) = true
  | vdict kvs => by simp [make_serializable, serializable, serializableKVs_ms kvs]
  | vlist xs => by simp [make_serializable, serializable, serializableList_ms xs]
  | vdtype s => rfl
  | vdtobj iso => rfl
  | vother t s => rfl
  | vnull => rfl
  | vbool b => rfl
  | vnum q => rfl
  | vstr s => rfl
theorem serializableList_ms : ∀ xs, serializableList (msList xs) = true
  | [] => rfl
  | x :: xs => by
      simp [msList, serializableList, serializable_make_serializable x, serializableList_ms xs]
theorem serializableKVs_ms : ∀ kvs, serializableKVs (msKVs kvs) = true
  | [] => rfl
  | (k, v) :: rest => by
      simp [msKVs, serializableKVs, serializable_make_serializable v, serializableKVs_ms rest]
end

theorem dlookup_msKVs (kvs : List (String × PyVal)) (k : String) :
    dlookup (msKVs kvs) k = (dlookup kvs k).map make_serializable := by
  induction kvs with
  | nil => simp [msKVs, dlookup]
  | cons hd tl ih =>
      obtain ⟨k0, v0⟩ := hd
      by_cases h : k0 = k
      · simp [msKVs, dlookup, h]
      · simp [msKVs, dlookup, h, ih]

/-! ### `VizExperimentStore.load_all_experiments` (viz_exp_store.py lines 54-72) -/

/-- Whitespace in the sense of Python's `str.strip` / the `re` module's `\s`
(the ASCII cases; the log and the generated code are ASCII-framed). -/
def pyIsSpace (c : Char) : Bool :=
  c == ' ' || c == '\t' || c == '\n' || c == '\r' || c == '\x0b' || c == '\x0c'

/-- Python `s.strip()`. -/
def pyStrip (s : String) : String :=
  String.mk (((s.toList.dropWhile pyIsSpace).reverse.dropWhile pyIsSpace).reverse)

/-- `load_all_experiments`: walk the log's lines top to bottom; strip each,
skip the empty ones, try `json.loads` (the `parse` oracle) and append on
success; a line that fails to parse is skipped and the walk continues.
`parse` stands for `json.loads`: `none` models `json.JSONDecodeError`. -/
def load_all_experiments {α : Type} (parse : String → Option α)
    (lines : List String) : List α :=
  lines.foldl (fun acc raw =>
    let line := pyStrip raw
    if line = "" then acc
    else
      match parse line with
      | some e => acc ++ [e]
      | none => acc) []

theorem load_all_experiments_acc {α : Type} (parse : String → Option α)
    (lines : List String) (acc : List α) :
    lines.foldl (fun acc raw =>
      let line := pyStrip raw
      if line = "" then acc
      else
        match parse line with
        | some e => acc ++ [e]
        | none => acc) acc = acc ++ load_all_experiments parse lines := by
  induction lines generalizing acc with
  | nil => simp [load_all_experiments]
  | cons hd tl ih =>
      simp only [load_all_experiments, List.foldl_cons]
      rw [ih]
      conv_rhs => rw [ih]
      by_cases h : pyStrip hd = ""
      · simp [h]
      · cases hp : parse (pyStrip hd) <;> simp [h, hp]

theorem load_all_experiments_append {α : Type} (parse : String → Option α)
    (l1 l2 : List String) :
    load_all_experiments parse (l1 ++ l2) =
      load_all_experiments parse l1 ++ load_all_experiments parse l2 := by
  unfold load_all_experiments
  rw [List.foldl_append]
  exact load_all_experiments_acc parse l2 _

/-! ### `VizExperimentStore.get_recent_experiments` and `find_best_dashboard`
(viz_exp_store.py lines 74-112)

These two methods read only the `timestamp` entry and the `results`
sub-mapping of each loaded record; `ExpRec` is a record as they see it,
`other` standing for the identity of all the entries they never read.  The
scoring entries of `results` are modelled as numbers: a non-numeric score
would make the source's float comparison raise, which the claims do not
touch. -/

structure ExpRec where
  other : ℕ
  timestamp : Option ℚ
  results : List (String × ℚ)
deriving DecidableEq

/-- Python `x.get('timestamp', 0)`, the sort key of `get_recent_experiments`. -/
def ts_key (e : ExpRec) : ℚ := e.timestamp.getD 0

/-- `a` may stand before `b` after the descending-by-timestamp sort. -/
def recent_ge (a b : ExpRec) : Prop := ts_key b ≤ ts_key a

instance recent_ge_dec : DecidableRel recent_ge := fun a b =>
  inferInstanceAs (Decidable (ts_key b ≤ ts_key a))

instance recent_ge_total : IsTotal ExpRec recent_ge :=
  ⟨fun a b => (le_total (ts_key b) (ts_key a)).imp id id⟩

instance recent_ge_trans : IsTrans ExpRec recent_ge :=
  ⟨fun _ _ _ h1 h2 => le_trans h2 h1⟩

/-- `get_recent_experiments` (viz_exp_store.py lines 105-112):
`experiments.sort(key=lambda x: x.get('timestamp', 0), reverse=True)` is a
stable sort descending by that key — a stable sort is determined by its
relation, so it is embedded as insertion sort under `recent_ge` — followed by
`experiments[:limit]`. -/
def get_recent_experiments (experiments : List ExpRec) (limit : ℕ) : List ExpRec :=
  (experiments.insertionSort recent_ge).take limit

/-- The score `find_best_dashboard` assigns a record for a metric, over the
record's `results` sub-mapping: built-in "interactivity" and "completeness"
scorers, otherwise a direct lookup of the metric defaulting to 0. -/
def score_of (metric_name : String) (e : ExpRec) : ℚ :=
  let results := e.results
  if metric_name = "interactivity" then
    (dlookup results "num_filters").getD 0 + (dlookup results "num_charts").getD 0 * (1 / 2)
  else if metric_name = "completeness" then
    (dlookup results "num_charts").getD 0
  else
    (dlookup results metric_name).getD 0

/-- The scan of `find_best_dashboard`: the running best (record, score) is
replaced only when a later score is strictly greater. -/
def fb_loop (metric_name : String) :
    List ExpRec → Option (ExpRec × ℚ) → Option (ExpRec × ℚ)
  | [], best => best
  | e :: rest, best =>
      let score := score_of metric_name e
      match best with
      | none => fb_loop metric_name rest (some (e, score))
      | some (be, bs) =>
          if bs < score then fb_loop metric_name rest (some (e, score))
          else fb_loop metric_name rest (some (be, bs))

/-- `find_best_dashboard` (viz_exp_store.py lines 74-103) over the loaded
experiments: `None` on an empty store, else the stable strict-greater scan. -/
def find_best_dashboard (metric_name : String) (experiments : List ExpRec) :
    Option ExpRec :=
  if experiments.isEmpty then none
  else (fb_loop metric_name experiments none).map Prod.fst

/-! ### `VizCodeGenerator.generate_code` (viz_code_generator.py lines 278-333)

`self.task_prompts` is passed as an association list `task_prompts`; the seven
registered task names are `viz_task_names` below (the prompt bodies are domain
content — spec scope excludes them — and only the key set and the bodies'
non-emptiness steer `generate_code`).  `str.format` is the oracle `fmt`
(`none` models the `KeyError` of a missing parameter: the source's templates
use named fields only, so `KeyError` is the only formatting fault they can
raise).  The model call plus the extraction
`response["choices"][0]["message"]["content"]` is the oracle `llm` (`Except.error`
carries the `str()` of whatever exception the `try` block caught). -/

/-- The keys of `VizCodeGenerator.task_prompts` (viz_code_generator.py lines 13-276). -/
def viz_task_names : List String :=
  ["load_data", "describe_data", "create_dashboard", "add_charts",
   "customize_dashboard", "show_dashboard", "export_dashboard"]

/-- The stub returned for a task name with no registered template:
`# Error: Unknown task '<task>'` and an assignment giving `results` an
`error` entry.  It is well-formed Python that executes successfully. -/
def unknown_task_stub (task_name : String) : String :=
  "# Error: Unknown task '" ++ task_name ++ "'\nresults = \x7b'error': 'Unknown task'\x7d"

/-- The stub returned when contacting the model raises: the error description
as a comment plus a failure `results` assignment. -/
def gen_error_stub (e : String) : String :=
  "# Error generating code: " ++ e ++ "\nresults = \x7b'error': 'Code generation failed'\x7d"

/-- The fixed framing around the task prompt (viz_code_generator.py lines
293-314): current state, the task text, and the code-generation instructions. -/
def build_full_prompt (state_info task_prompt : String) : String :=
  "Current State:\n" ++ state_info ++ "\n\nTask: " ++ task_prompt ++
  "\n\nGenerate complete, executable Python code that:\n" ++
  "1. Works with current global variables (cux_df, d, etc.)\n" ++
  "2. Uses cuxfilter for GPU-accelerated dashboards\n" ++
  "3. Uses cudf DataFrames for data\n" ++
  "4. Handles errors gracefully\n" ++
  "5. Stores ALL results in the 'results' dictionary\n" ++
  "6. Includes helpful print statements\n" ++
  "7. Creates production-ready, interactive dashboards\n" ++
  "8. Follows cuxfilter best practices\n\n" ++
  "IMPORTANT:\n" ++
  "- Use proper imports: import cuxfilter, from cuxfilter import charts, layouts, themes\n" ++
  "- Use from bokeh import palettes for color palettes\n" ++
  "- Ensure all chart configurations are valid\n" ++
  "- Match column names exactly from the dataframe\n\n" ++
  "Return ONLY executable Python code with NO markdown formatting, NO explanations, NO ```python blocks."

/-- `re.sub(r'^```python\s*\n', '', code)` and its plain-fence sibling: when
the text starts with the fence followed by whitespace containing a newline,
drop through the last newline of that whitespace run (how the greedy
`\s*` backtracks to its final `\n`); otherwise leave the text alone. -/
def drop_fence_open (fence : List Char) (cs : List Char) : List Char :=
  if fence.isPrefixOf cs then
    let rest := cs.drop fence.length
    let w := rest.takeWhile pyIsSpace
    match (w.reverse.findIdx? (· == '\n')) with
    | some j => rest.drop (w.length - j)
    | none => cs
  else cs

/-- `re.sub(r'\n```$', '', code)`: without `re.M`, `$` matches at the end of
the text or just before a final newline, so a trailing markdown fence is
removed in exactly those two positions. -/
def drop_fence_close (cs : List Char) : List Char :=
  let r := cs.reverse
  if ('`' :: '`' :: '`' :: '\n' :: []).isPrefixOf r then
    (r.drop 4).reverse
  else if ('\n' :: '`' :: '`' :: '`' :: '\n' :: []).isPrefixOf r then
    ('\n' :: r.drop 5).reverse
  else cs

/-- The markdown clean-up of `generate_code` (viz_code_generator.py lines
325-328): strip an opening ```` ```python ```` fence, then an opening
```` ``` ```` fence, then a closing fence, then `str.strip`. -/
def clean_code (code : String) : String :=
  pyStrip (String.mk (drop_fence_close
    (drop_fence_open ("```".toList) (drop_fence_open ("```python".toList) code.toList))))

/-- `VizCodeGenerator.generate_code`: unknown task (or empty template) gives
the unknown-task stub; a `KeyError` while formatting falls back to the
unformatted template; the model's reply is cleaned of fences; any fault from
the model call becomes the generation-error stub.  Total: it never raises. -/
def generate_code (task_prompts : List (String × String)) (task_name : String)
    (state_info : String) (kwargs : List (String × PyVal))
    (fmt : String → List (String × PyVal) → Option String)
    (llm : String → Except String String) : String :=
  let prompt_template := (dlookup task_prompts task_name).getD ""
  if prompt_template = "" then
    unknown_task_stub task_name
  else
    let task_prompt := (fmt prompt_template kwargs).getD prompt_template
    let full_prompt := build_full_prompt state_info task_prompt
    match llm full_prompt with
    | .ok content => clean_code content
    | .error e => gen_error_stub e

/-! ### `VizCodeExecutor.execute_code` (viz_code_executor.py lines 186-277)

`exec(code, globals(), local_vars)` is the oracle `run`, already applied to
the code text: given the prepared `local_vars` it either completes, yielding
the final local namespace and the text printed to the captured stdout, or
raises, yielding the exception's `str()`, the formatted traceback and the
output captured up to the fault.  `dashboard.export(output_file)` is the
oracle `export_attempt` (given the bound dashboard value and the path).
`timestamp` stands for `datetime.datetime.now().strftime("%Y%m%d_%H%M%S")`. -/

/-- Outcome of `exec` on the prepared namespace. -/
inductive RunRes where
  | ok (locals_out : List (String × PyVal)) (out : String)
  | exn (msg : String) (tb : String) (partial_out : String)

/-- Python `v is not None`, negated. -/
def pyIsNone : PyVal → Bool
  | vnull => true
  | _ => false

/-- The mapping `execute_code` returns.  The source returns a dict whose keys
differ between the branches: `error` and `traceback` are present only in the
failure dict (`none` = key absent); `dashboard`, `dashboard_file`, `charts`,
`widgets` and `cux_df` are the success dict's `local_vars.get(...)` values
(`vnull` both when unbound and when bound to `None`, as `dict.get` conflates
them).  There is no `results` entry in either branch.  `made_dirs` records
the `os.makedirs(output_dir, exist_ok=True)` side effect. -/
structure ExecResult where
  success : Bool
  output : String
  error : Option String
  traceback : Option String
  dashboard : PyVal
  dashboard_file : PyVal
  charts : PyVal
  widgets : PyVal
  cux_df : PyVal
  globals : List (String × PyVal)
  made_dirs : List String

/-- `VizCodeExecutor.execute_code`: prepare
`local_vars = {'df': self.df, 'cux_df': self.cux_df, **global_state}`, run the
code capturing stdout; on success, attempt the dashboard export when a
`dashboard` name is bound (recording `_dashboard_file` on success, an
output line either way), refresh the instance's `df`/`cux_df` from non-`None`
bindings, and return the success mapping; on a raise, return the failure
mapping and leave the instance state alone.  Returns the result together with
the new `self.df` and `self.cux_df`. -/
def execute_code (self_df self_cux_df : PyVal)
    (run : List (String × PyVal) → RunRes)
    (export_attempt : PyVal → String → Except String Unit)
    (timestamp : String)
    (global_state : List (String × PyVal)) :
    ExecResult × PyVal × PyVal :=
  let local_vars := nsUpdate [("df", self_df), ("cux_df", self_cux_df)] global_state
  match run local_vars with
  | .exn msg tb partial_out =>
      ({ success := false, output := partial_out, error := some msg,
         traceback := some tb, dashboard := vnull, dashboard_file := vnull,
         charts := vnull, widgets := vnull, cux_df := vnull, globals := [],
         made_dirs := [] }, self_df, self_cux_df)
  | .ok locals0 out =>
      let captured0 : List String := if out ≠ "" then [out] else []
      let step :=
        match dlookup locals0 "dashboard" with
        | some dash =>
            let output_file := "dashboards/dashboard_" ++ timestamp ++ ".html"
            match export_attempt dash output_file with
            | .ok _ =>
                (captured0 ++ ["\n✓ Dashboard exported to: " ++ output_file],
                 dinsert locals0 "_dashboard_file" (vstr output_file), ["dashboards"])
            | .error e =>
                (captured0 ++ ["\n✗ Failed to export dashboard: " ++ e], locals0,
                 ["dashboards"])
        | none => (captured0, locals0, [])
      let captured := step.1
      let locals1 := step.2.1
      let new_cux_df :=
        match dlookup locals1 "cux_df" with
        | some v => if pyIsNone v then self_cux_df else v
        | none => self_cux_df
      let new_df :=
        match dlookup locals1 "df" with
        | some v => if pyIsNone v then self_df else v
        | none => self_df
      ({ success := true, output := String.intercalate "\n" captured,
         error := none, traceback := none,
         dashboard := (dlookup locals1 "dashboard").getD vnull,
         dashboard_file := (dlookup locals1 "_dashboard_file").getD vnull,
         charts := (dlookup locals1 "charts").getD vnull,
         widgets := (dlookup locals1 "widgets").getD vnull,
         cux_df := (dlookup locals1 "cux_df").getD vnull,
         globals := locals1, made_dirs := step.2.2 }, new_df, new_cux_df)

/-! ### `VizTools.execute_tool` (viz_tools.py lines 142-170)

The orchestrator's state: the experiment log, the persistent cross-call
namespace `global_state`, and the executor instance's `df` / `cux_df`.
`get_state_description` inspects live objects (shapes, dtypes, Python type
names) that the value model cannot see, so it is the oracle `state_desc`; its
output only flows into the model prompt.  `exec` is the oracle `interp`,
keyed by the generated code text.  The user-facing `_format_response`
rendering is not embedded: no claim concerns it. -/

structure ToolsState where
  store : List PyVal
  global_state : List (String × PyVal)
  exec_df : PyVal
  exec_cux_df : PyVal

/-- `VizTools.execute_tool`: describe the state, generate code, execute it,
merge the returned namespace into `global_state` only on success, and always
persist one experiment record `{task, parameters, code, success, results,
error}` through `save_experiment`.  `results` is read from the execution
result with `result.get('results', {})`; `execute_code`'s mapping carries no
`results` entry in either branch, so the default `{}` is always taken.
Returns the new state and the execution result. -/
def execute_tool (task_prompts : List (String × String))
    (fmt : String → List (String × PyVal) → Option String)
    (llm : String → Except String String)
    (state_desc : List (String × PyVal) → String)
    (interp : String → List (String × PyVal) → RunRes)
    (export_attempt : PyVal → String → Except String Unit)
    (now : ℚ) (date_str timestamp : String)
    (st : ToolsState) (tool_name : String) (kwargs : List (String × PyVal)) :
    ToolsState × ExecResult :=
  let state_info := state_desc st.global_state
  let code := generate_code task_prompts tool_name state_info kwargs fmt llm
  let step := execute_code st.exec_df st.exec_cux_df (interp code) export_attempt
    timestamp st.global_state
  let result := step.1
  let new_global :=
    if result.success then nsUpdate st.global_state result.globals
    else st.global_state
  let experiment_data : List (String × PyVal) :=
    [("task", vstr tool_name),
     ("parameters", vdict kwargs),
     ("code", vstr code),
     ("success", vbool result.success),
     ("results", vdict []),
     ("error", (result.error.map vstr).getD vnull)]
  let new_store := (save_experiment now date_str st.store experiment_data).1
  ({ store := new_store, global_state := new_global,
     exec_df := step.2.1, exec_cux_df := step.2.2 }, result)

/-! ## Claim theorems -/

theorem load_all_all_parse {α : Type} (parse : String → Option α) (recs : String → α)
    (l : List String) (h : ∀ x ∈ l, pyStrip x ≠ "" ∧ parse (pyStrip x) = some (recs x)) :
    load_all_experiments parse l = l.map recs := by
  induction l with
  | nil => rfl
  | cons hd tl ih =>
      have hhd := h hd (by simp)
      simp only [load_all_experiments, List.foldl_cons]
      rw [load_all_experiments_acc]
      simp only [hhd.1, hhd.2, if_neg hhd.1]
      rw [ih (fun x hx => h x (by simp [hx]))]
      simp [load_all_experiments]

/-- C4: For every log content in which exactly one line fails to parse as
JSON (or is blank after stripping), `load_all_experiments` returns all
records from the other lines unaffected, in file order (oldest first), and
omits only the corrupt line; the function is total (it never raises) and the
records after the corrupt line are all present (it never stops early). -/
theorem c4_corrupt_line_skipped {α : Type} (parse : String → Option α)
    (recs : String → α) (pre post : List String) (bad : String)
    (hbad : parse (pyStrip bad) = none ∨ pyStrip bad = "")
    (hok : ∀ l ∈ pre ++ post, pyStrip l ≠ "" ∧ parse (pyStrip l) = some (recs l)) :
    load_all_experiments parse (pre ++ bad :: post) = pre.map recs ++ post.map recs := by
  have hpre : ∀ x ∈ pre, pyStrip x ≠ "" ∧ parse (pyStrip x) = some (recs x) :=
    fun x hx => hok x (by simp [hx])
  have hpost : ∀ x ∈ post, pyStrip x ≠ "" ∧ parse (pyStrip x) = some (recs x) :=
    fun x hx => hok x (by simp [hx])
  have hb : load_all_experiments parse [bad] = [] := by
    rcases hbad with hb | hb <;> simp [load_all_experiments, hb]
  calc load_all_experiments parse (pre ++ bad :: post)
      = load_all_experiments parse pre ++ load_all_experiments parse ([bad] ++ post) := by
        rw [load_all_experiments_append]
        rfl
    _ = load_all_experiments parse pre ++
          (load_all_experiments parse [bad] ++ load_all_experiments parse post) := by
        rw [load_all_experiments_append]
    _ = pre.map recs ++ post.map recs := by
        rw [hb, load_all_all_parse parse recs pre hpre, load_all_all_parse parse recs post hpost]
        simp

/-- C4 witness: a three-line log whose middle line is corrupt loads to the
two good records, in order. -/
theorem c4_corrupt_line_skipped_witness :
    load_all_experiments
        (fun s => if s = "one" then some 1 else if s = "two" then some 2 else none)
        (["one"] ++ "oops" :: ["two"]) = ["one"].map (fun l => if l = "one" then 1 else 2)
      ++ ["two"].map (fun l => if l = "one" then 1 else 2) :=
  c4_corrupt_line_skipped _ _ ["one"] ["two"] "oops" (by decide) (by decide)

/-- C5 counterexample: the claim says a record missing a timestamp is
"treated as timestamp 0 and therefore ranked last"; over the store's actual
content that consequence fails: against a record whose stored timestamp is
negative, the missing-timestamp record (key 0) is ranked FIRST, not last. -/
theorem c5_recent_counterexample :
    get_recent_experiments [⟨0, some (-1), []⟩, ⟨1, none, []⟩] 2 =
        [⟨1, none, []⟩, ⟨0, some (-1), []⟩] ∧
      (⟨1, none, []⟩ : ExpRec).timestamp = none ∧
      (⟨0, some (-1), []⟩ : ExpRec).timestamp = some (-1) := by
  decide

/-- C5 (amended): `get_recent_experiments limit` returns at most `limit`
records, sorted by descending timestamp with a missing timestamp treated as
timestamp 0; consequently, whenever every timestamp present in the store is
positive (as every stamp `save_experiment` writes is), the records missing a
timestamp are ranked last. -/
theorem c5_recent_experiments (experiments : List ExpRec) (limit : ℕ) :
    (get_recent_experiments experiments limit).length ≤ limit ∧
    (get_recent_experiments experiments limit).Pairwise recent_ge ∧
    ((∀ x ∈ experiments, ∀ q, x.timestamp = some q → 0 < q) →
      (get_recent_experiments experiments limit).Pairwise
        (fun a b => a.timestamp = none → b.timestamp = none)) := by
  have hsorted : (experiments.insertionSort recent_ge).Pairwise recent_ge :=
    List.sorted_insertionSort recent_ge experiments
  have hsub : List.Sublist (get_recent_experiments experiments limit)
      (experiments.insertionSort recent_ge) := List.take_sublist _ _
  have hpair : (get_recent_experiments experiments limit).Pairwise recent_ge :=
    hsorted.sublist hsub
  have hmem : ∀ x ∈ get_recent_experiments experiments limit, x ∈ experiments := by
    intro x hx
    exact (List.perm_insertionSort recent_ge experiments).mem_iff.mp (hsub.subset hx)
  refine ⟨List.length_take_le _ _, hpair, fun hpos => ?_⟩
  refine hpair.imp_of_mem ?_
  intro a b ha hb hr hnone
  cases hbt : b.timestamp with
  | none => rfl
  | some q =>
      exfalso
      have hq : 0 < q := hpos b (hmem b hb) q hbt
      have : ts_key b ≤ ts_key a := hr
      rw [ts_key, ts_key, hnone, hbt] at this
      simp at this
      exact absurd (lt_of_lt_of_le hq this) (by norm_num)

/-- C5 witness: on a store whose present timestamps are positive, the
missing-timestamp record ranks last. -/
theorem c5_recent_experiments_witness :
    (get_recent_experiments [⟨0, some 2, []⟩, ⟨1, none, []⟩] 5).Pairwise
      (fun a b => a.timestamp = none → b.timestamp = none) :=
  (c5_recent_experiments [⟨0, some 2, []⟩, ⟨1, none, []⟩] 5).2.2 (by decide)

theorem fb_loop_spec (metric_name : String) :
    ∀ (l : List ExpRec) (be : ExpRec) (bs : ℚ), bs = score_of metric_name be →
    ∃ r s, fb_loop metric_name l (some (be, bs)) = some (r, s) ∧
      s = score_of metric_name r ∧ bs ≤ s ∧
      (∀ x ∈ l, score_of metric_name x ≤ s) ∧
      ((r = be ∧ s = bs) ∨
        (bs < s ∧ ∃ l1 l2, l = l1 ++ r :: l2 ∧ ∀ x ∈ l1, score_of metric_name x < s))
  | [], be, bs, hbe => ⟨be, bs, rfl, hbe, le_refl bs, by simp, Or.inl ⟨rfl, rfl⟩⟩
  | e :: rest, be, bs, hbe => by
      by_cases h : bs < score_of metric_name e
      · obtain ⟨r, s, heq, hs, hle, hall, hdisj⟩ :=
          fb_loop_spec metric_name rest e (score_of metric_name e) rfl
        refine ⟨r, s, ?_, hs, le_of_lt (lt_of_lt_of_le h hle), ?_, ?_⟩
        · simp only [fb_loop, if_pos h]
          exact heq
        · intro x hx
          rcases List.mem_cons.mp hx with hx | hx
          · exact hx ▸ hle
          · exact hall x hx
        · refine Or.inr ⟨lt_of_lt_of_le h hle, ?_⟩
          rcases hdisj with ⟨hre, hse⟩ | ⟨hlt, l1, l2, hsplit, hl1⟩
          · exact ⟨[], rest, by simp [hre], by simp⟩
          · refine ⟨e :: l1, l2, by simp [hsplit], ?_⟩
            intro x hx
            rcases List.mem_cons.mp hx with hx | hx
            · rw [hx]
              exact hlt
            · exact hl1 x hx
      · obtain ⟨r, s, heq, hs, hle, hall, hdisj⟩ := fb_loop_spec metric_name rest be bs hbe
        have hse : score_of metric_name e ≤ bs := le_of_not_lt h
        refine ⟨r, s, ?_, hs, hle, ?_, ?_⟩
        · simp only [fb_loop, if_neg h]
          exact heq
        · intro x hx
          rcases List.mem_cons.mp hx with hx | hx
          · exact hx ▸ le_trans hse hle
          · exact hall x hx
        · rcases hdisj with hsame | ⟨hlt, l1, l2, hsplit, hl1⟩
          · exact Or.inl hsame
          · refine Or.inr ⟨hlt, e :: l1, l2, by simp [hsplit], ?_⟩
            intro x hx
            rcases List.mem_cons.mp hx with hx | hx
            · rw [hx]
              exact lt_of_le_of_lt hse hlt
            · exact hl1 x hx

/-- C6: `find_best_dashboard` returns the empty result on an empty store;
on a non-empty store it returns the first-seen record of maximum score
(strictly-greater comparison only, so ties are resolved in favour of the
first-seen record), where the score of a record is `score_of` over its
`results` sub-mapping; and on the two records
`[{results: {num_charts: 2}}, {results: {num_charts: 5}}]` the metric
"completeness" selects the second record. -/
theorem c6_find_best (metric_name : String) (experiments : List ExpRec) :
    (find_best_dashboard metric_name [] = none) ∧
    (∀ e rest, experiments = e :: rest →
      ∃ r, find_best_dashboard metric_name experiments = some r ∧
        (∀ x ∈ experiments, score_of metric_name x ≤ score_of metric_name r) ∧
        ∃ l1 l2, experiments = l1 ++ r :: l2 ∧
          ∀ x ∈ l1, score_of metric_name x < score_of metric_name r) ∧
    (find_best_dashboard "completeness"
        [⟨0, none, [("num_charts", 2)]⟩, ⟨1, none, [("num_charts", 5)]⟩] =
      some ⟨1, none, [("num_charts", 5)]⟩) := by
  refine ⟨rfl, ?_, by decide⟩
  intro e rest hsplit
  subst hsplit
  obtain ⟨r, s, heq, hs, hle, hall, hdisj⟩ :=
    fb_loop_spec metric_name rest e (score_of metric_name e) rfl
  have hrun : find_best_dashboard metric_name (e :: rest) = some r := by
    simp only [find_best_dashboard, List.isEmpty_cons, Bool.false_eq_true, if_false,
      fb_loop, heq, Option.map_some']
  refine ⟨r, hrun, ?_, ?_⟩
  · intro x hx
    rw [← hs]
    rcases List.mem_cons.mp hx with hx | hx
    · exact hx ▸ hle
    · exact hall x hx
  · rcases hdisj with ⟨hre, hse⟩ | ⟨hlt, l1, l2, hsplit, hl1⟩
    · exact ⟨[], rest, by simp [hre], by simp⟩
    · refine ⟨e :: l1, l2, by simp [hsplit], ?_⟩
      intro x hx
      rw [← hs]
      rcases List.mem_cons.mp hx with hx | hx
      · rw [hx]
        exact hlt
      · exact hl1 x hx

/-- C6 witness: the general part applied to the two-record "completeness"
store of the claim. -/
theorem c6_find_best_witness :
    ∃ r, find_best_dashboard "completeness"
        [⟨0, none, [("num_charts", 2)]⟩, ⟨1, none, [("num_charts", 5)]⟩] = some r ∧
      (∀ x ∈ ([⟨0, none, [("num_charts", 2)]⟩, ⟨1, none, [("num_charts", 5)]⟩] :
          List ExpRec), score_of "completeness" x ≤ score_of "completeness" r) ∧
      ∃ l1 l2, ([⟨0, none, [("num_charts", 2)]⟩, ⟨1, none, [("num_charts", 5)]⟩] :
          List ExpRec) = l1 ++ r :: l2 ∧
        ∀ x ∈ l1, score_of "completeness" x < score_of "completeness" r :=
  (c6_find_best "completeness"
    [⟨0, none, [("num_charts", 2)]⟩, ⟨1, none, [("num_charts", 5)]⟩]).2.1
    ⟨0, none, [("num_charts", 2)]⟩ [⟨1, none, [("num_charts", 5)]⟩] rfl

/-- C7: `save_experiment`'s recursive sanitization turns any record —
including one whose `results` holds a non-serializable value — into a
serializable-only structure, so the appended log line is a value every leaf
of which `json.dumps` accepts (the append and a subsequent re-parse cannot
fail on it); and the sanitization is idempotent: applying it twice to any
value yields the same structure as applying it once. -/
theorem c7_sanitize_idempotent (v : PyVal) (now : ℚ) (date_str : String)
    (store : List PyVal) (experiment_data : List (String × PyVal)) :
    make_serializable (make_serializable v) = make_serializable v ∧
    serializable (make_serializable v) = true ∧
    ∃ written, (save_experiment now date_str store experiment_data).1 =
        store ++ [written] ∧
      serializable written = true ∧ make_serializable written = written := by
  refine ⟨make_serializable_idem v, serializable_make_serializable v, ?_⟩
  refine ⟨make_serializable (vdict (dinsert (dinsert experiment_data "timestamp"
    (vnum now)) "date" (vstr date_str))), rfl,
    serializable_make_serializable _, make_serializable_idem _⟩

/-- C10: `save_experiment` mutates the caller's own mapping: after the call
the argument dict itself carries the newly stamped `timestamp` and `date`
entries (all its other entries unchanged), while what is appended to the log
is the sanitized copy of that stamped argument. -/
theorem c10_save_mutates_argument (now : ℚ) (date_str : String)
    (store : List PyVal) (experiment_data : List (String × PyVal)) :
    dlookup (save_experiment now date_str store experiment_data).2 "timestamp" =
        some (vnum now) ∧
    dlookup (save_experiment now date_str store experiment_data).2 "date" =
        some (vstr date_str) ∧
    (∀ k, k ≠ "timestamp" → k ≠ "date" →
      dlookup (save_experiment now date_str store experiment_data).2 k =
        dlookup experiment_data k) ∧
    (save_experiment now date_str store experiment_data).1 =
      store ++ [make_serializable
        (vdict (save_experiment now date_str store experiment_data).2)] := by
  refine ⟨?_, ?_, ?_, rfl⟩
  · rw [save_experiment]
    rw [dlookup_dinsert_ne _ "date" "timestamp" _ (by decide)]
    exact dlookup_dinsert_self _ _ _
  · exact dlookup_dinsert_self _ _ _
  · intro k hts hdate
    rw [save_experiment]
    rw [dlookup_dinsert_ne _ "date" k _ (Ne.symm hdate)]
    exact dlookup_dinsert_ne _ "timestamp" k _ (Ne.symm hts)

/-- C10 witness: saving `{'task': 'load_data'}` at time 5 leaves the caller's
dict stamped with the timestamp and with its own entry intact. -/
theorem c10_save_mutates_argument_witness :
    dlookup (save_experiment 5 "2025-01-02 03:04:05" []
        [("task", vstr "load_data")]).2 "timestamp" = some (vnum 5) ∧
    dlookup (save_experiment 5 "2025-01-02 03:04:05" []
        [("task", vstr "load_data")]).2 "task" = some (vstr "load_data") := by
  refine ⟨(c10_save_mutates_argument 5 "2025-01-02 03:04:05" []
    [("task", vstr "load_data")]).1, ?_⟩
  rw [(c10_save_mutates_argument 5 "2025-01-02 03:04:05" []
    [("task", vstr "load_data")]).2.2.1 "task" (by decide) (by decide)]
  rfl

/-- C8: `generate_code` never raises — it is total, and the two fault paths
are handled: for a known task whose template formatting fails with a
`KeyError` (a missing expected parameter; the registered templates use named
fields only, so no other formatting fault can arise), it sends the
UNformatted instructional content and returns the cleaned model reply; and
for any fault raised by the model client it returns the stub that assigns a
failure `results` mapping and embeds the error description as a comment. -/
theorem c8_generate_code_total (task_prompts : List (String × String))
    (task_name tmpl state_info : String) (kwargs : List (String × PyVal))
    (fmt : String → List (String × PyVal) → Option String)
    (llm : String → Except String String)
    (hfound : (dlookup task_prompts task_name).getD "" = tmpl) (hne : tmpl ≠ "") :
    (∀ r, fmt tmpl kwargs = none →
      llm (build_full_prompt state_info tmpl) = .ok r →
      generate_code task_prompts task_name state_info kwargs fmt llm = clean_code r) ∧
    (∀ e, llm (build_full_prompt state_info ((fmt tmpl kwargs).getD tmpl)) = .error e →
      generate_code task_prompts task_name state_info kwargs fmt llm = gen_error_stub e) := by
  constructor
  · intro r hfmt hllm
    simp only [generate_code, hfound, if_neg hne, hfmt, Option.getD_none, hllm]
  · intro e hllm
    simp only [generate_code, hfound, if_neg hne, hllm]

/-- C8 witness: the `KeyError` fallback at a concrete table and a model reply
wrapped in a markdown fence, and the generation-error stub at a failing model
call. -/
theorem c8_generate_code_total_witness :
    generate_code [("load_data", "T")] "load_data" "" []
        (fun _ _ => none) (fun _ => .ok "```python\nx = 1\n```") =
      clean_code "```python\nx = 1\n```" ∧
    generate_code [("load_data", "T")] "load_data" "" []
        (fun _ _ => none) (fun _ => .error "model unreachable") =
      gen_error_stub "model unreachable" :=
  ⟨(c8_generate_code_total [("load_data", "T")] "load_data" "T" "" []
      (fun _ _ => none) (fun _ => .ok "```python\nx = 1\n```") rfl (by decide)).1
      "```python\nx = 1\n```" rfl rfl,
   (c8_generate_code_total [("load_data", "T")] "load_data" "T" "" []
      (fun _ _ => none) (fun _ => .error "model unreachable") rfl (by decide)).2
      "model unreachable" rfl⟩

theorem dlookup_eq_none_of_not_mem {α : Type} (l : List (String × α)) (k : String)
    (h : k ∉ l.map Prod.fst) : dlookup l k = none := by
  induction l with
  | nil => rfl
  | cons hd tl ih =>
      obtain ⟨k0, v0⟩ := hd
      simp only [List.map_cons, List.mem_cons] at h
      push_neg at h
      have hne : ¬ k0 = k := fun he => h.1 he.symm
      simp [dlookup, hne, ih h.2]

theorem dlookup_nsUpdate_none {α : Type} (base upd : List (String × α)) (k : String)
    (h : dlookup upd k = none) : dlookup (nsUpdate base upd) k = dlookup base k := by
  induction upd generalizing base with
  | nil => rfl
  | cons hd tl ih =>
      obtain ⟨k0, v0⟩ := hd
      by_cases h0 : k0 = k
      · subst h0
        simp [dlookup] at h
      · simp only [dlookup, if_neg h0] at h
        show dlookup (nsUpdate (dinsert base k0 v0) tl) k = dlookup base k
        rw [ih _ h, dlookup_dinsert_ne _ _ _ _ h0]

theorem dlookup_nsUpdate_some {α : Type} (base upd : List (String × α)) (k : String)
    (v : α) (hnd : (upd.map Prod.fst).Nodup) (h : dlookup upd k = some v) :
    dlookup (nsUpdate base upd) k = some v := by
  induction upd generalizing base with
  | nil => simp [dlookup] at h
  | cons hd tl ih =>
      obtain ⟨k0, v0⟩ := hd
      simp only [List.map_cons, List.nodup_cons] at hnd
      by_cases h0 : k0 = k
      · subst h0
        have hv : v0 = v := by simpa [dlookup] using h
        subst hv
        have htl : dlookup tl k0 = none := dlookup_eq_none_of_not_mem tl k0 hnd.1
        show dlookup (nsUpdate (dinsert base k0 v0) tl) k0 = some v0
        rw [dlookup_nsUpdate_none _ _ _ htl, dlookup_dinsert_self]
      · simp only [dlookup, if_neg h0] at h
        exact ih _ hnd.2 h

/-- C3 counterexample: starting from an empty persistent namespace and an
execution whose code produces no bindings at all, the persistent namespace
after the (successful) call is not the pre-call value overlaid with the
code's (empty) bindings — it has additionally acquired the executor's
baseline `df` and `cux_df` bindings. -/
theorem c3_namespace_counterexample :
    (execute_tool [("load_data", "T")] (fun t _ => some t) (fun _ => .ok "pass")
        (fun _ => "") (fun _ ns => .ok ns "") (fun _ _ => .error "no export")
        0 "d" "t" ⟨[], [], vnull, vnull⟩ "load_data" []).1.global_state =
      [("df", vnull), ("cux_df", vnull)] ∧
    (execute_tool [("load_data", "T")] (fun t _ => some t) (fun _ => .ok "pass")
        (fun _ => "") (fun _ ns => .ok ns "") (fun _ _ => .error "no export")
        0 "d" "t" ⟨[], [], vnull, vnull⟩ "load_data" []).1.global_state ≠
      ([] : List (String × PyVal)) := by
  have he : (execute_tool [("load_data", "T")] (fun t _ => some t) (fun _ => .ok "pass")
      (fun _ => "") (fun _ ns => .ok ns "") (fun _ _ => .error "no export")
      0 "d" "t" ⟨[], [], vnull, vnull⟩ "load_data" []).1.global_state =
      [("df", vnull), ("cux_df", vnull)] := rfl
  refine ⟨he, ?_⟩
  rw [he]
  simp

/-- C3 (amended): after a failing execution the persistent namespace equals
its pre-call value exactly (no partial merge); after a succeeding one it is
the pre-call value overlaid with the execution's final local namespace
(`result['globals']` — which holds the executor's baseline `df`/`cux_df`
bindings and the auto-export's `_dashboard_file` binding in addition to the
bindings the code produced), the overlay winning on key conflicts. -/
theorem c3_namespace_merge (task_prompts : List (String × String))
    (fmt : String → List (String × PyVal) → Option String)
    (llm : String → Except String String)
    (state_desc : List (String × PyVal) → String)
    (interp : String → List (String × PyVal) → RunRes)
    (export_attempt : PyVal → String → Except String Unit)
    (now : ℚ) (date_str timestamp : String)
    (st : ToolsState) (tool_name : String) (kwargs : List (String × PyVal)) :
    ((execute_tool task_prompts fmt llm state_desc interp export_attempt now
        date_str timestamp st tool_name kwargs).2.success = false →
      (execute_tool task_prompts fmt llm state_desc interp export_attempt now
        date_str timestamp st tool_name kwargs).1.global_state = st.global_state) ∧
    ((execute_tool task_prompts fmt llm state_desc interp export_attempt now
        date_str timestamp st tool_name kwargs).2.success = true →
      (execute_tool task_prompts fmt llm state_desc interp export_attempt now
          date_str timestamp st tool_name kwargs).1.global_state =
        nsUpdate st.global_state (execute_tool task_prompts fmt llm state_desc
          interp export_attempt now date_str timestamp st tool_name kwargs).2.globals ∧
      (((execute_tool task_prompts fmt llm state_desc interp export_attempt now
          date_str timestamp st tool_name kwargs).2.globals.map Prod.fst).Nodup →
        (∀ k v, dlookup (execute_tool task_prompts fmt llm state_desc interp
            export_attempt now date_str timestamp st tool_name kwargs).2.globals k =
              some v →
          dlookup (execute_tool task_prompts fmt llm state_desc interp
            export_attempt now date_str timestamp st tool_name kwargs).1.global_state k =
              some v) ∧
        (∀ k, dlookup (execute_tool task_prompts fmt llm state_desc interp
            export_attempt now date_str timestamp st tool_name kwargs).2.globals k =
              none →
          dlookup (execute_tool task_prompts fmt llm state_desc interp
            export_attempt now date_str timestamp st tool_name kwargs).1.global_state k =
            dlookup st.global_state k))) := by
  have hgs : (execute_tool task_prompts fmt llm state_desc interp export_attempt now
      date_str timestamp st tool_name kwargs).1.global_state =
      (if (execute_tool task_prompts fmt llm state_desc interp export_attempt now
          date_str timestamp st tool_name kwargs).2.success then
        nsUpdate st.global_state (execute_tool task_prompts fmt llm state_desc
          interp export_attempt now date_str timestamp st tool_name kwargs).2.globals
      else st.global_state) := rfl
  constructor
  · intro h
    rw [hgs, h]
    simp
  · intro h
    rw [hgs, h]
    simp only [if_pos rfl]
    refine ⟨rfl, fun hnd => ⟨fun k v hk => ?_, fun k hk => ?_⟩⟩
    · exact dlookup_nsUpdate_some _ _ _ _ hnd hk
    · exact dlookup_nsUpdate_none _ _ _ hk

/-- C3 witness: both branches at concrete runs — a raising execution leaves
the one-binding namespace untouched; a succeeding one that binds `x` merges
it in while the untouched pre-call binding persists. -/
theorem c3_namespace_merge_witness :
    (execute_tool [("load_data", "T")] (fun t _ => some t) (fun _ => .ok "boom()")
        (fun _ => "") (fun _ _ => .exn "boom" "Traceback" "") (fun _ _ => .error "no export")
        0 "d" "t" ⟨[], [("keep", vnum 7)], vnull, vnull⟩ "load_data" []).1.global_state =
      [("keep", vnum 7)] ∧
    dlookup (execute_tool [("load_data", "T")] (fun t _ => some t) (fun _ => .ok "x = 1")
        (fun _ => "") (fun _ ns => .ok (dinsert ns "x" (vnum 1)) "")
        (fun _ _ => .error "no export")
        0 "d" "t" ⟨[], [("keep", vnum 7)], vnull, vnull⟩ "load_data" []).1.global_state
      "x" = some (vnum 1) := by
  constructor
  · exact (c3_namespace_merge [("load_data", "T")] (fun t _ => some t)
      (fun _ => .ok "boom()") (fun _ => "") (fun _ _ => .exn "boom" "Traceback" "")
      (fun _ _ => .error "no export") 0 "d" "t"
      ⟨[], [("keep", vnum 7)], vnull, vnull⟩ "load_data" []).1 rfl
  · exact (((c3_namespace_merge [("load_data", "T")] (fun t _ => some t)
      (fun _ => .ok "x = 1") (fun _ => "") (fun _ ns => .ok (dinsert ns "x" (vnum 1)) "")
      (fun _ _ => .error "no export") 0 "d" "t"
      ⟨[], [("keep", vnum 7)], vnull, vnull⟩ "load_data" []).2 rfl).2 (by decide)).1
      "x" (vnum 1) rfl

/-- The key set of `VizCodeGenerator.task_prompts` with stand-in bodies: the
prompt texts are domain content outside the embedded scope, and only the key
set and the bodies' non-emptiness steer `generate_code`. -/
def viz_task_prompts : List (String × String) :=
  viz_task_names.map (fun n => (n, "task prompt body"))

theorem execute_tool_store_of_ok (task_prompts : List (String × String))
    (fmt : String → List (String × PyVal) → Option String)
    (llm : String → Except String String)
    (state_desc : List (String × PyVal) → String)
    (interp : String → List (String × PyVal) → RunRes)
    (export_attempt : PyVal → String → Except String Unit)
    (now : ℚ) (date_str timestamp : String)
    (st : ToolsState) (tool_name : String) (kwargs : List (String × PyVal))
    (locals0 : List (String × PyVal)) (out : String)
    (hrun : interp (generate_code task_prompts tool_name
          (state_desc st.global_state) kwargs fmt llm)
        (nsUpdate [("df", st.exec_df), ("cux_df", st.exec_cux_df)] st.global_state) =
      .ok locals0 out) :
    (execute_tool task_prompts fmt llm state_desc interp export_attempt now
        date_str timestamp st tool_name kwargs).1.store =
      st.store ++ [vdict (msKVs (dinsert (dinsert
        [("task", vstr tool_name), ("parameters", vdict kwargs),
         ("code", vstr (generate_code task_prompts tool_name
            (state_desc st.global_state) kwargs fmt llm)),
         ("success", vbool true), ("results", vdict []), ("error", vnull)]
        "timestamp" (vnum now)) "date" (vstr date_str)))] := by
  dsimp only [execute_tool, execute_code]
  rw [hrun]
  cases hd : dlookup locals0 "dashboard" with
  | none => rfl
  | some dash =>
      cases he : export_attempt dash ("dashboards/dashboard_" ++ timestamp ++ ".html") with
      | ok u => rfl
      | error e => rfl

/-- C2 counterexample: invoking the orchestrator for the unregistered task
name "bogus_task" (its code stub `results = {'error': 'Unknown task'}` is
well-formed Python and executes successfully) appends exactly one record —
but that record has `success=true` and `error=None`, not the claimed
`success=false` with a non-empty error string. -/
theorem c2_unknown_task_counterexample :
    ∃ kvs, (execute_tool viz_task_prompts (fun t _ => some t)
        (fun _ => .error "model unreachable") (fun _ => "")
        (fun _ ns => .ok (dinsert ns "results"
          (vdict [("error", vstr "Unknown task")])) "")
        (fun _ _ => .error "no export") 0 "d" "t"
        ⟨[], [], vnull, vnull⟩ "bogus_task" []).1.store = [vdict kvs] ∧
      dlookup kvs "success" = some (vbool true) ∧
      dlookup kvs "error" = some vnull ∧
      dlookup kvs "code" = some (vstr (unknown_task_stub "bogus_task")) :=
  ⟨[("task", vstr "bogus_task"), ("parameters", vdict []),
    ("code", vstr (unknown_task_stub "bogus_task")), ("success", vbool true),
    ("results", vdict []), ("error", vnull), ("timestamp", vnum 0),
    ("date", vstr "d")], rfl, rfl, rfl, rfl⟩

/-- C2 (amended): for every task name that has no registered template and
every parameter mapping, one call to `execute_tool` appends exactly one
experiment record to the store — but, because the unknown-task stub executes
successfully and the executor's result carries no `results` entry, that
record has `success=true`, `error=None` and empty `results` (the stub's
failure indication lives only in the executed code's own `results` binding,
which is not propagated). -/
theorem c2_unknown_task_record (task_prompts : List (String × String))
    (fmt : String → List (String × PyVal) → Option String)
    (llm : String → Except String String)
    (state_desc : List (String × PyVal) → String)
    (interp : String → List (String × PyVal) → RunRes)
    (export_attempt : PyVal → String → Except String Unit)
    (now : ℚ) (date_str timestamp : String)
    (st : ToolsState) (task_name : String) (kwargs : List (String × PyVal))
    (hunknown : (dlookup task_prompts task_name).getD "" = "")
    (hinterp : ∀ ns, interp (unknown_task_stub task_name) ns =
      .ok (dinsert ns "results" (vdict [("error", vstr "Unknown task")])) "") :
    ∃ kvs, (execute_tool task_prompts fmt llm state_desc interp export_attempt
        now date_str timestamp st task_name kwargs).1.store =
        st.store ++ [vdict kvs] ∧
      dlookup kvs "task" = some (vstr task_name) ∧
      dlookup kvs "success" = some (vbool true) ∧
      dlookup kvs "results" = some (vdict []) ∧
      dlookup kvs "error" = some vnull := by
  have hcode : generate_code task_prompts task_name (state_desc st.global_state)
      kwargs fmt llm = unknown_task_stub task_name := by
    simp [generate_code, hunknown]
  have hrun : interp (generate_code task_prompts task_name
        (state_desc st.global_state) kwargs fmt llm)
      (nsUpdate [("df", st.exec_df), ("cux_df", st.exec_cux_df)] st.global_state) =
      .ok (dinsert (nsUpdate [("df", st.exec_df), ("cux_df", st.exec_cux_df)]
        st.global_state) "results" (vdict [("error", vstr "Unknown task")])) "" := by
    rw [hcode]
    exact hinterp _
  refine ⟨msKVs (dinsert (dinsert
      [("task", vstr task_name), ("parameters", vdict kwargs),
       ("code", vstr (generate_code task_prompts task_name
          (state_desc st.global_state) kwargs fmt llm)),
       ("success", vbool true), ("results", vdict []), ("error", vnull)]
      "timestamp" (vnum now)) "date" (vstr date_str)),
    execute_tool_store_of_ok task_prompts fmt llm state_desc interp export_attempt
      now date_str timestamp st task_name kwargs _ _ hrun, ?_, ?_, ?_, ?_⟩
  · rw [dlookup_msKVs, dlookup_dinsert_ne _ "date" "task" _ (by decide),
      dlookup_dinsert_ne _ "timestamp" "task" _ (by decide)]
    simp [dlookup, make_serializable]
  · rw [dlookup_msKVs, dlookup_dinsert_ne _ "date" "success" _ (by decide),
      dlookup_dinsert_ne _ "timestamp" "success" _ (by decide)]
    simp [dlookup, make_serializable]
  · rw [dlookup_msKVs, dlookup_dinsert_ne _ "date" "results" _ (by decide),
      dlookup_dinsert_ne _ "timestamp" "results" _ (by decide)]
    simp [dlookup, make_serializable, msKVs]
  · rw [dlookup_msKVs, dlookup_dinsert_ne _ "date" "error" _ (by decide),
      dlookup_dinsert_ne _ "timestamp" "error" _ (by decide)]
    simp [dlookup, make_serializable]

/-- C2 witness: the amended record shape at a concrete unknown task name. -/
theorem c2_unknown_task_record_witness :
    ∃ kvs, (execute_tool viz_task_prompts (fun t _ => some t)
        (fun _ => .error "model unreachable") (fun _ => "")
        (fun _ ns => .ok (dinsert ns "results"
          (vdict [("error", vstr "Unknown task")])) "")
        (fun _ _ => .error "no export") 0 "d" "t"
        ⟨[], [], vnull, vnull⟩ "show_history" []).1.store = [] ++ [vdict kvs] ∧
      dlookup kvs "task" = some (vstr "show_history") ∧
      dlookup kvs "success" = some (vbool true) ∧
      dlookup kvs "results" = some (vdict []) ∧
      dlookup kvs "error" = some vnull :=
  c2_unknown_task_record viz_task_prompts (fun t _ => some t)
    (fun _ => .error "model unreachable") (fun _ => "")
    (fun _ ns => .ok (dinsert ns "results"
      (vdict [("error", vstr "Unknown task")])) "")
    (fun _ _ => .error "no export") 0 "d" "t"
    ⟨[], [], vnull, vnull⟩ "show_history" [] rfl (fun _ => rfl)

/-- C1: evaluation at the failing input.  The executed code is the single
assignment `results = {'num_charts': 3}` (its Python meaning: bind `results`
in the local namespace, print nothing).  The execution succeeds and its final
namespace carries that `results` mapping — but `execute_code`'s returned
mapping has no `results` entry at all (see `ExecResult`), so the record
`execute_tool` persists via `result.get('results', {})` carries the empty
`results`, not the one the code produced.  This contradicts the orchestrator's
own read of `result['results']`, the generator's contract that the code
"stores ALL results in the 'results' dictionary", and the commented-out
predecessor executor in the same file, all of which expect the `results`
binding to flow through. -/
theorem c1_executor_drops_results :
    dlookup (execute_tool [("load_data", "T")] (fun t _ => some t)
        (fun _ => .ok "results = \x7b'num_charts': 3\x7d") (fun _ => "")
        (fun _ ns => .ok (dinsert ns "results" (vdict [("num_charts", vnum 3)])) "")
        (fun _ _ => .error "no export") 0 "d" "t"
        ⟨[], [], vnull, vnull⟩ "load_data" []).2.globals "results" =
      some (vdict [("num_charts", vnum 3)]) ∧
    (execute_tool [("load_data", "T")] (fun t _ => some t)
        (fun _ => .ok "results = \x7b'num_charts': 3\x7d") (fun _ => "")
        (fun _ ns => .ok (dinsert ns "results" (vdict [("num_charts", vnum 3)])) "")
        (fun _ _ => .error "no export") 0 "d" "t"
        ⟨[], [], vnull, vnull⟩ "load_data" []).2.success = true ∧
    (execute_tool [("load_data", "T")] (fun t _ => some t)
        (fun _ => .ok "results = \x7b'num_charts': 3\x7d") (fun _ => "")
        (fun _ ns => .ok (dinsert ns "results" (vdict [("num_charts", vnum 3)])) "")
        (fun _ _ => .error "no export") 0 "d" "t"
        ⟨[], [], vnull, vnull⟩ "load_data" []).1.store =
      [vdict [("task", vstr "load_data"), ("parameters", vdict []),
        ("code", vstr "results = \x7b'num_charts': 3\x7d"), ("success", vbool true),
        ("results", vdict []), ("error", vnull), ("timestamp", vnum 0),
        ("date", vstr "d")]] :=
  ⟨rfl, rfl, rfl⟩

theorem intercalate_single (s a : String) : String.intercalate s [a] = a := rfl

theorem intercalate_pair (s a b : String) : String.intercalate s [a, b] = a ++ s ++ b := rfl

/-- Modelled from the spec: the claimed dashboard-export procedure "trying
multiple export call conventions in order (content-returning export,
path-accepting export, a save-style fallback) and recording which
succeeded".  No such fallback chain exists in `VizCodeExecutor.execute_code`
(the source makes the single path-accepting call `dashboard.export(output_file)`);
this definition follows the spec's words, for comparison with the source's
behaviour.  The three fields are the three call conventions a dashboard
object may support. -/
structure DashboardExportApi where
  contentExport : Except String String
  pathExport : String → Except String Unit
  saveStyle : String → Except String Unit

/-- Modelled from the spec: the ordered attempts, returning which convention
succeeded (`none` when all fail). -/
def spec_multi_export (api : DashboardExportApi) (path : String) : Option String :=
  match api.contentExport with
  | .ok _ => some "content-returning export"
  | .error _ =>
      match api.pathExport path with
      | .ok _ => some "path-accepting export"
      | .error _ =>
          match api.saveStyle path with
          | .ok _ => some "save-style fallback"
          | .error _ => none

/-- C9 counterexample: a dashboard whose path-accepting export raises but
whose save-style call succeeds.  Under the claimed multi-convention chain the
export would succeed via the save-style fallback; the source's executor makes
only the single path-accepting call, reports the failure line and records no
dashboard file — so the claimed fallback order is not what the code does. -/
theorem c9_export_counterexample :
    spec_multi_export
        ⟨.error "no content-returning export", fun _ => .error "export failed",
         fun _ => .ok ()⟩ "dashboards/dashboard_t.html" = some "save-style fallback" ∧
    (execute_code vnull vnull
        (fun ns => .ok (dinsert ns "dashboard" (vother "dashboard" "cuxfilter dashboard")) "")
        (fun _ p => (⟨.error "no content-returning export", fun _ => .error "export failed",
          fun _ => .ok ()⟩ : DashboardExportApi).pathExport p)
        "t" []).1.dashboard_file = vnull ∧
    (execute_code vnull vnull
        (fun ns => .ok (dinsert ns "dashboard" (vother "dashboard" "cuxfilter dashboard")) "")
        (fun _ p => (⟨.error "no content-returning export", fun _ => .error "export failed",
          fun _ => .ok ()⟩ : DashboardExportApi).pathExport p)
        "t" []).1.output = "\n✗ Failed to export dashboard: export failed" :=
  ⟨rfl, rfl, rfl⟩

/-- C9 (amended): when the executed code binds a dashboard, the executor
ensures the fixed output directory exists and makes the single path-accepting
export call `dashboard.export(path)` on the timestamped file
`dashboards/dashboard_<timestamp>.html`; on success it records the file and
appends a success output line, on any export fault it catches the fault and
appends a failure output line — and the execution returns `success=true`
either way. -/
theorem c9_dashboard_export (self_df self_cux_df : PyVal)
    (run : List (String × PyVal) → RunRes)
    (export_attempt : PyVal → String → Except String Unit) (timestamp : String)
    (global_state locals0 : List (String × PyVal)) (out : String) (dash : PyVal)
    (hrun : run (nsUpdate [("df", self_df), ("cux_df", self_cux_df)] global_state) =
      .ok locals0 out)
    (hdash : dlookup locals0 "dashboard" = some dash)
    (hnofile : dlookup locals0 "_dashboard_file" = none) :
    (execute_code self_df self_cux_df run export_attempt timestamp
        global_state).1.success = true ∧
    (execute_code self_df self_cux_df run export_attempt timestamp
        global_state).1.made_dirs = ["dashboards"] ∧
    (export_attempt dash ("dashboards/dashboard_" ++ timestamp ++ ".html") = .ok () →
      (execute_code self_df self_cux_df run export_attempt timestamp
          global_state).1.dashboard_file =
        vstr ("dashboards/dashboard_" ++ timestamp ++ ".html") ∧
      (execute_code self_df self_cux_df run export_attempt timestamp
          global_state).1.output =
        (if out = "" then "" else out ++ "\n") ++
          ("\n✓ Dashboard exported to: " ++
            ("dashboards/dashboard_" ++ timestamp ++ ".html"))) ∧
    (∀ e, export_attempt dash ("dashboards/dashboard_" ++ timestamp ++ ".html") =
        .error e →
      (execute_code self_df self_cux_df run export_attempt timestamp
          global_state).1.dashboard_file = vnull ∧
      (execute_code self_df self_cux_df run export_attempt timestamp
          global_state).1.output =
        (if out = "" then "" else out ++ "\n") ++
          ("\n✗ Failed to export dashboard: " ++ e)) := by
  refine ⟨?_, ?_, fun hexp => ⟨?_, ?_⟩, fun e hexp => ⟨?_, ?_⟩⟩
  · dsimp only [execute_code]
    rw [hrun]
  · dsimp only [execute_code]
    rw [hrun]
    dsimp only
    rw [hdash]
    dsimp only
    cases hexp : export_attempt dash ("dashboards/dashboard_" ++ timestamp ++ ".html")
      <;> rfl
  · dsimp only [execute_code]
    rw [hrun]
    dsimp only
    rw [hdash]
    dsimp only
    rw [hexp]
    dsimp only
    rw [dlookup_dinsert_self]
    rfl
  · dsimp only [execute_code]
    rw [hrun]
    dsimp only
    rw [hdash]
    dsimp only
    rw [hexp]
    by_cases hout : out = ""
    · simp [hout, intercalate_single]
    · simp [hout, intercalate_pair]
  · dsimp only [execute_code]
    rw [hrun]
    dsimp only
    rw [hdash]
    dsimp only
    rw [hexp]
    dsimp only
    rw [hnofile]
    rfl
  · dsimp only [execute_code]
    rw [hrun]
    dsimp only
    rw [hdash]
    dsimp only
    rw [hexp]
    by_cases hout : out = ""
    · simp [hout, intercalate_single]
    · simp [hout, intercalate_pair]

/-- C9 witness: both export branches at concrete runs that bind a dashboard
and print "hello". -/
theorem c9_dashboard_export_witness :
    ((execute_code vnull vnull
        (fun ns => .ok (dinsert ns "dashboard" (vother "dashboard" "D")) "hello")
        (fun _ _ => .ok ()) "t" []).1.dashboard_file =
      vstr ("dashboards/dashboard_" ++ "t" ++ ".html") ∧
    (execute_code vnull vnull
        (fun ns => .ok (dinsert ns "dashboard" (vother "dashboard" "D")) "hello")
        (fun _ _ => .ok ()) "t" []).1.output =
      (if ("hello" : String) = "" then "" else "hello" ++ "\n") ++
        ("\n✓ Dashboard exported to: " ++ ("dashboards/dashboard_" ++ "t" ++ ".html"))) ∧
    (execute_code vnull vnull
        (fun ns => .ok (dinsert ns "dashboard" (vother "dashboard" "D")) "hello")
        (fun _ _ => .error "boom") "t" []).1.success = true :=
  ⟨(c9_dashboard_export vnull vnull
      (fun ns => .ok (dinsert ns "dashboard" (vother "dashboard" "D")) "hello")
      (fun _ _ => .ok ()) "t" [] (dinsert (nsUpdate [("df", vnull), ("cux_df", vnull)] [])
        "dashboard" (vother "dashboard" "D")) "hello" (vother "dashboard" "D")
      rfl rfl rfl).2.2.1 rfl,
   (c9_dashboard_export vnull vnull
      (fun ns => .ok (dinsert ns "dashboard" (vother "dashboard" "D")) "hello")
      (fun _ _ => .error "boom") "t" [] (dinsert (nsUpdate [("df", vnull), ("cux_df", vnull)] [])
        "dashboard" (vother "dashboard" "D")) "hello" (vother "dashboard" "D")
      rfl rfl rfl).1⟩
